import Mathlib

/-!
Verification of the vectorized temporal builtin evaluators
(`expression/builtin_time_vec.go`).

Each evaluator is shallowly embedded: a column of the row batch is a
`List (Option v)` (`none` = SQL NULL for that row), a batch call returns
`Except EvalErr (List (Option v))` (a hard error aborts the whole call),
and machine integers are `Int`/`Nat` with explicit reduction modulo `2^64`
where the Go code converts between `int64` and `uint64`.

Library routines of the repository that live outside the embedded file
(the `types` package, `handleInvalidTimeError`, the period helpers) are
modelled from the specification; their doc comments say so explicitly.
-/

namespace TimeVec

/-! ## Machine-integer casts (Go `int64` / `uint64` conversions) -/

/-- Go's `uint64(x)` conversion of an `int64` value: reduce modulo `2^64`. -/
def toUInt64 (x : Int) : Nat := (x % 18446744073709551616).toNat

/-- Go's `int64(u)` conversion of a `uint64` value: two's-complement
reinterpretation of the value modulo `2^64`. -/
def toInt64 (x : Int) : Int :=
  if x % 18446744073709551616 < 9223372036854775808 then x % 18446744073709551616
  else x % 18446744073709551616 - 18446744073709551616

/-- Go's wrapping subtraction on `uint64` operands. -/
def usub64 (x y : Nat) : Nat := (((x : Int) - (y : Int)) % 18446744073709551616).toNat

theorem toUInt64_of_small {x : Int} (h0 : 0 ≤ x) (h1 : x < 18446744073709551616) :
    (toUInt64 x : Int) = x := by
  unfold toUInt64
  omega

theorem toInt64_of_small {x : Int} (h0 : 0 ≤ x) (h1 : x < 9223372036854775808) :
    toInt64 x = x := by
  unfold toInt64
  split <;> omega

theorem toInt64_nat_of_small {n : Nat} (h : n < 9223372036854775808) :
    toInt64 (n : Int) = (n : Int) := by
  exact toInt64_of_small (by omega) (by omega)

theorem usub64_small {x y : Nat} (hx : x < 9223372036854775808)
    (hy : y < 9223372036854775808) :
    toInt64 (usub64 x y) = (x : Int) - y := by
  unfold usub64 toInt64
  split <;> omega

/-! ## The temporal value model

Modelled from the spec: `TemporalValue ... carries year/month/day ...,
hour/minute/second/microsecond` with the two sentinel predicates
`isZero` (the literal zero value `0000-00-00`) and `isInvalidZero`
(a calendar-invalid combination such as a zero month or day part). -/

structure MyTime where
  year : Nat
  month : Nat
  day : Nat
  hour : Nat
  minute : Nat
  second : Nat
  microsecond : Nat
deriving DecidableEq

/-- Modelled from the spec: the literal zero value `0000-00-00 00:00:00`. -/
def MyTime.isZero (t : MyTime) : Bool :=
  t.year = 0 && t.month = 0 && t.day = 0 && t.hour = 0 && t.minute = 0 &&
    t.second = 0 && t.microsecond = 0

/-- Modelled from the spec: `isInvalidZero` holds of any calendar-invalid
combination with a zero month or day component (e.g. month=0 with nonzero
year). -/
def MyTime.invalidZero (t : MyTime) : Bool :=
  t.month = 0 || t.day = 0

/-- The all-zero date `0000-00-00`. -/
def zeroTime : MyTime := ⟨0, 0, 0, 0, 0, 0, 0⟩

/-! ## Errors and the batch-evaluation loop -/

/-- The hard errors the embedded evaluators can raise:
`incorrectArgs` (`errIncorrectArgs`, used by the period functions) and
`wrongValue` (`types.ErrWrongValue`, used for invalid temporal values,
resolved to fatal by the invalid-time policy, and for bad unit tags). -/
inductive EvalErr where
  | incorrectArgs
  | wrongValue
deriving DecidableEq

/-- The row loop shared by all vectorized evaluators: rows are processed in
order; the first row whose computation raises a hard error aborts the whole
batch call. -/
def vecEval (f : α → Except EvalErr β) : List α → Except EvalErr (List β)
  | [] => .ok []
  | a :: as =>
    match f a with
    | .error e => .error e
    | .ok b =>
      match vecEval f as with
      | .error e => .error e
      | .ok bs => .ok (b :: bs)

theorem vecEval_ok_get {f : α → Except EvalErr β} {xs : List α} {out : List β}
    (h : vecEval f xs = .ok out) :
    ∀ (i : Nat) (a : α), xs[i]? = some a → ∃ b, f a = .ok b ∧ out[i]? = some b := by
  induction xs generalizing out with
  | nil => intro i a ha; simp at ha
  | cons x xs ih =>
    intro i a ha
    unfold vecEval at h
    cases hfx : f x with
    | error e => rw [hfx] at h; exact absurd h (by simp)
    | ok b =>
      rw [hfx] at h
      cases hrec : vecEval f xs with
      | error e => rw [hrec] at h; exact absurd h (by simp)
      | ok bs =>
        rw [hrec] at h
        simp only [Except.ok.injEq] at h
        subst h
        cases i with
        | zero =>
          simp only [List.getElem?_cons_zero, Option.some.injEq] at ha
          subst ha
          exact ⟨b, hfx, by simp⟩
        | succ j =>
          simp only [List.getElem?_cons_succ] at ha
          obtain ⟨b', hb', hout⟩ := ih hrec j a ha
          exact ⟨b', hb', by simpa using hout⟩

theorem vecEval_error {f : α → Except EvalErr β} {xs : List α} {i : Nat} {a : α}
    {e : EvalErr} (ha : xs[i]? = some a) (hf : f a = .error e) :
    ∃ e', vecEval f xs = .error e' := by
  induction xs generalizing i with
  | nil => simp at ha
  | cons x xs ih =>
    cases i with
    | zero =>
      simp only [List.getElem?_cons_zero, Option.some.injEq] at ha
      subst ha
      exact ⟨e, by simp [vecEval, hf]⟩
    | succ j =>
      simp only [List.getElem?_cons_succ] at ha
      unfold vecEval
      cases hfx : f x with
      | error e' => exact ⟨e', rfl⟩
      | ok b =>
        obtain ⟨e', he'⟩ := ih ha
        exact ⟨e', by rw [he']⟩

theorem vecEval_ok_values {f : α → Except EvalErr β} {xs : List α} {out : List β}
    (h : vecEval f xs = .ok out) :
    ∀ (i : Nat) (b : β), out[i]? = some b → ∃ a, xs[i]? = some a ∧ f a = .ok b := by
  induction xs generalizing out with
  | nil =>
    intro i b hb
    unfold vecEval at h
    simp only [Except.ok.injEq] at h
    subst h
    simp at hb
  | cons x xs ih =>
    intro i b hb
    unfold vecEval at h
    cases hfx : f x with
    | error e => rw [hfx] at h; exact absurd h (by simp)
    | ok b' =>
      rw [hfx] at h
      cases hrec : vecEval f xs with
      | error e => rw [hrec] at h; exact absurd h (by simp)
      | ok bs =>
        rw [hrec] at h
        simp only [Except.ok.injEq] at h
        subst h
        cases i with
        | zero =>
          simp only [List.getElem?_cons_zero, Option.some.injEq] at hb
          subst hb
          exact ⟨x, by simp, hfx⟩
        | succ j =>
          simp only [List.getElem?_cons_succ] at hb
          obtain ⟨a, ha, hfa⟩ := ih hrec j b hb
          exact ⟨a, by simpa using ha, hfa⟩

theorem vecEval_error_mem {f : α → Except EvalErr β} {xs : List α} {e : EvalErr}
    (h : vecEval f xs = .error e) : ∃ a ∈ xs, f a = .error e := by
  induction xs with
  | nil => exact absurd h (by simp [vecEval])
  | cons x xs ih =>
    unfold vecEval at h
    cases hfx : f x with
    | error e' =>
      rw [hfx] at h
      simp only [Except.error.injEq] at h
      subst h
      exact ⟨x, by simp, hfx⟩
    | ok b =>
      rw [hfx] at h
      cases hrec : vecEval f xs with
      | error e' =>
        rw [hrec] at h
        simp only [Except.error.injEq] at h
        subst h
        obtain ⟨a, ha, hfa⟩ := ih hrec
        exact ⟨a, by simp [ha], hfa⟩
      | ok bs => rw [hrec] at h; exact absurd h (by simp)

theorem vecEval_error_exact {f : α → Except EvalErr β} {xs : List α} {i : Nat}
    {a : α} {e : EvalErr} (ha : xs[i]? = some a) (hf : f a = .error e)
    (hclass : ∀ a' e', f a' = .error e' → e' = e) :
    vecEval f xs = .error e := by
  obtain ⟨e', he'⟩ := vecEval_error ha hf
  obtain ⟨a', _, hfa'⟩ := vecEval_error_mem he'
  rw [he', hclass a' e' hfa']

theorem vecEval_singleton {f : α → Except EvalErr β} {a : α} {b : β}
    (h : f a = .ok b) : vecEval f [a] = .ok [b] := by
  unfold vecEval
  rw [h]
  rfl

theorem vecEval_ok_total {f : α → Except EvalErr β} {xs : List α}
    (h : ∀ a ∈ xs, ∃ b, f a = .ok b) : ∃ out, vecEval f xs = .ok out := by
  induction xs with
  | nil => exact ⟨[], rfl⟩
  | cons x xs ih =>
    obtain ⟨b, hb⟩ := h x (by simp)
    obtain ⟨out, hout⟩ := ih (fun a ha => h a (by simp [ha]))
    exact ⟨b :: out, by simp [vecEval, hb, hout]⟩

theorem zip_getElem? {l1 : List α} {l2 : List β} {i : Nat} {a : α} {b : β} :
    (l1.zip l2)[i]? = some (a, b) ↔ l1[i]? = some a ∧ l2[i]? = some b := by
  induction l1 generalizing l2 i with
  | nil => simp
  | cons x xs ih =>
    cases l2 with
    | nil => simp
    | cons y ys =>
      cases i with
      | zero => simp [List.zip_cons_cons]
      | succ j => simpa [List.zip_cons_cons] using ih

/-! ## Proleptic Gregorian calendar arithmetic

Modelled from the spec: the temporal value model's pure conversion
routines (to/from calendar date). Day numbers are counted with
`0001-01-01` as day 1. -/

/-- Gregorian leap-year predicate. -/
def isLeap (y : Nat) : Bool :=
  (y % 4 = 0 && y % 100 ≠ 0) || y % 400 = 0

/-- Number of leap years in `1..y`. -/
def leapsBefore (y : Nat) : Nat := y / 4 - y / 100 + y / 400

/-- Cumulative days before month `m` in a non-leap year (`m` is 1-based). -/
def cumDaysBefore (m : Nat) : Nat :=
  match m with
  | 0 => 0
  | 1 => 0
  | 2 => 31
  | 3 => 59
  | 4 => 90
  | 5 => 120
  | 6 => 151
  | 7 => 181
  | 8 => 212
  | 9 => 243
  | 10 => 273
  | 11 => 304
  | _ => 334

/-- Modelled from the spec: the day number of calendar date `y-m-d`
(the `calcDaynr`-style conversion behind `TimestampDiff("DAY", zero, t)`
and `ToDays`), with `0001-01-01` mapped to day 1. -/
def dayNumber (y m d : Nat) : Nat :=
  365 * (y - 1) + leapsBefore (y - 1) + cumDaysBefore m +
    (if 2 < m && isLeap y then 1 else 0) + d

/-- Modelled from the spec: the inverse conversion from a day number back to
a calendar date (the `types.TimeFromDays` routine); standard civil-from-days
computation on the proleptic Gregorian calendar. -/
def dateFromDayNumber (n : Nat) : MyTime :=
  let z := n + 305
  let era := z / 146097
  let doe := z % 146097
  let yoe := (doe - doe / 1460 + doe / 36524 - doe / 146096) / 365
  let y := yoe + era * 400
  let doy := doe - (365 * yoe + yoe / 4 - yoe / 100)
  let mp := (5 * doy + 2) / 153
  let d := doy - (153 * mp + 2) / 5 + 1
  let m := if mp < 10 then mp + 3 else mp - 9
  if m ≤ 2 then ⟨y + 1, m, d, 0, 0, 0, 0⟩ else ⟨y, m, d, 0, 0, 0, 0⟩

/-- Modelled from the spec: the library's Sunday-first day-of-week index
(Sunday = 0, ..., Saturday = 6) of a date; `0001-01-01` is a Monday. -/
def sundayFirstWeekday (t : MyTime) : Nat :=
  dayNumber t.year t.month t.day % 7

/-! ## Period arithmetic (PERIOD_ADD / PERIOD_DIFF)

The helpers `validPeriod`, `period2Month` and `month2Period` are not part
of the embedded file; they are modelled from the spec: a period integer
encodes `YYYYMM` or `YYMM` (month part `01..12`, at most six digits), and
`period→month-index` and `month-index→period` are mutually inverse. -/

/-- Modelled from the spec: a period is valid when it has the fixed 4 or
6-digit `YYYYMM`/`YYMM` shape: non-negative, at most six digits, and a
month part between 1 and 12. -/
def validPeriod (p : Int) : Bool :=
  0 ≤ p && p ≤ 999999 && 1 ≤ p % 100 && p % 100 ≤ 12

/-- Modelled from the spec: convert a period (`uint64`) to a linear month
index. -/
def period2Month (p : Nat) : Nat := (p / 100) * 12 + (p % 100) - 1

/-- Modelled from the spec: convert a linear month index (`uint64`) back to
a period; mutually inverse with `period2Month`. -/
def month2Period (m : Nat) : Nat := (m / 12) * 100 + (m % 12) + 1

/-- The per-row computation of `builtinPeriodAddSig.vecEvalInt`:
`sumMonth := int64(period2Month(uint64(p))) + n` followed by
`int64(month2Period(uint64(sumMonth)))`, with Go conversion semantics. -/
def periodAddRow (p n : Int) : Int :=
  toInt64 (month2Period (toUInt64 (toInt64 ((toInt64 (period2Month (toUInt64 p)) + n)))))

/-- The per-row computation of `builtinPeriodDiffSig.vecEvalInt`:
`int64(period2Month(uint64(a)) - period2Month(uint64(b)))` with wrapping
`uint64` subtraction. -/
def periodDiffRow (a b : Int) : Int :=
  toInt64 (usub64 (period2Month (toUInt64 a)) (period2Month (toUInt64 b)))

/-- Row body of `builtinPeriodAddSig.vecEvalInt`: nulls of either argument
are checked first (the row is set null and no validity check runs); then an
invalid period argument is a hard `errIncorrectArgs` error for the whole
batch call. Only the period argument `p` is validity-checked. -/
def periodAddRowE : Option Int × Option Int → Except EvalErr (Option Int)
  | (some p, some n) =>
    if validPeriod p then .ok (some (periodAddRow p n)) else .error .incorrectArgs
  | _ => .ok none

/-- Row body of `builtinPeriodDiffSig.vecEvalInt`: both arguments are
periods and both are validity-checked, after the null check. -/
def periodDiffRowE : Option Int × Option Int → Except EvalErr (Option Int)
  | (some a, some b) =>
    if !validPeriod a || !validPeriod b then .error .incorrectArgs
    else .ok (some (periodDiffRow a b))
  | _ => .ok none

/-- `builtinPeriodAddSig.vecEvalInt` over a batch. -/
def periodAddVec (ps ns : List (Option Int)) : Except EvalErr (List (Option Int)) :=
  vecEval periodAddRowE (ps.zip ns)

/-- `builtinPeriodDiffSig.vecEvalInt` over a batch. -/
def periodDiffVec (ps ns : List (Option Int)) : Except EvalErr (List (Option Int)) :=
  vecEval periodDiffRowE (ps.zip ns)

/-! ## The invalid-time policy

`handleInvalidTimeError` is not part of the embedded file; it is modelled
from the spec (§4.3/§7): the policy resolves an invalid or zero temporal
value to `Fatal` or `WarnAndNull` per session mode — under strict mode the
error is fatal (the batch call aborts), otherwise the row is set null and a
warning is appended to the diagnostic sink.  Evaluator row bodies below
take the two relevant mode flags (`noZeroDate`, `strict`) as parameters
and return the number of warnings the row appended. -/

/-- Row body of `builtinMonthSig.vecEvalInt`: null rows stay null; a literal
zero date yields 0 when `NoZeroDate` is off, and is routed through the
invalid-time policy when `NoZeroDate` is on (fatal under strict mode,
otherwise null plus one warning); other rows yield the month component. -/
def monthRowE (noZeroDate strict : Bool) : Option MyTime → Except EvalErr (Option Int × Nat)
  | none => .ok (none, 0)
  | some d =>
    if d.isZero then
      if noZeroDate then
        if strict then .error .wrongValue else .ok (none, 1)
      else .ok (some 0, 0)
    else .ok (some (d.month : Int), 0)

/-- Row body of `builtinYearSig.vecEvalInt`; identical to `monthRowE` except
that a non-zero row yields the year component. -/
def yearRowE (noZeroDate strict : Bool) : Option MyTime → Except EvalErr (Option Int × Nat)
  | none => .ok (none, 0)
  | some d =>
    if d.isZero then
      if noZeroDate then
        if strict then .error .wrongValue else .ok (none, 1)
      else .ok (some 0, 0)
    else .ok (some (d.year : Int), 0)

/-- `builtinMonthSig.vecEvalInt` over a batch; each row carries its value
and the number of warnings it appended. -/
def monthVec (noZeroDate strict : Bool) (rows : List (Option MyTime)) :
    Except EvalErr (List (Option Int × Nat)) :=
  vecEval (monthRowE noZeroDate strict) rows

/-- `builtinYearSig.vecEvalInt` over a batch. -/
def yearVec (noZeroDate strict : Bool) (rows : List (Option MyTime)) :
    Except EvalErr (List (Option Int × Nat)) :=
  vecEval (yearRowE noZeroDate strict) rows

/-! ## WEEKDAY and the DAYNAME index -/

/-- The MySQL Monday-first day-of-week value computed by both
`builtinWeekDaySig.vecEvalInt` and `builtinDayNameSig.vecEvalIndex`:
`(libraryWeekday + 6) % 7`, converting the Sunday-first library index. -/
def mysqlWeekday (t : MyTime) : Int :=
  ((sundayFirstWeekday t + 6) % 7 : Nat)

/-- Row body of `builtinWeekDaySig.vecEvalInt`: null rows stay null; a
literal zero date is routed through the invalid-time policy; other rows
yield `(weekday + 6) % 7`. -/
def weekDayRowE (strict : Bool) : Option MyTime → Except EvalErr (Option Int)
  | none => .ok none
  | some d =>
    if d.isZero then
      if strict then .error .wrongValue else .ok none
    else .ok (some (mysqlWeekday d))

/-- Row body of `builtinDayNameSig.vecEvalIndex`: as `weekDayRowE` but the
guard is the `InvalidZero` predicate. -/
def dayNameRowE (strict : Bool) : Option MyTime → Except EvalErr (Option Int)
  | none => .ok none
  | some d =>
    if d.invalidZero then
      if strict then .error .wrongValue else .ok none
    else .ok (some (mysqlWeekday d))

/-- `builtinWeekDaySig.vecEvalInt` over a batch. -/
def weekDayVec (strict : Bool) (rows : List (Option MyTime)) :
    Except EvalErr (List (Option Int)) :=
  vecEval (weekDayRowE strict) rows

/-- `builtinDayNameSig.vecEvalIndex` over a batch. -/
def dayNameVec (strict : Bool) (rows : List (Option MyTime)) :
    Except EvalErr (List (Option Int)) :=
  vecEval (dayNameRowE strict) rows

/-! ## YEARWEEK -/

/-- The year-week composite computed by both YEARWEEK evaluators:
`int64(week + year*100)`, and whenever the signed value is negative the
unsigned 32-bit maximum `math.MaxUint32` is substituted. -/
def yearWeekCombine (year week : Int) : Int :=
  if toInt64 (week + year * 100) < 0 then 4294967295 else toInt64 (week + year * 100)

/-- Row body of `builtinYearWeekWithModeSig.vecEvalInt`, parameterized over
the library week-numbering function `fn` (`Time.YearWeek`, outside the
embedded file).  Only the date argument's null is merged into the result;
a null mode argument is silently treated as mode 0.  A literal zero date is
routed through the invalid-time policy. -/
def ywModeRowE (fn : MyTime → Int → Int × Int) (strict : Bool) :
    Option MyTime × Option Int → Except EvalErr (Option Int)
  | (none, _) => .ok none
  | (some d, om) =>
    if d.isZero then
      if strict then .error .wrongValue else .ok none
    else
      let mode := om.getD 0
      .ok (some (yearWeekCombine (fn d mode).1 (fn d mode).2))

/-- Row body of `builtinYearWeekWithoutModeSig.vecEvalInt`: the guard is the
`InvalidZero` predicate and the mode is fixed to 0. -/
def ywNoModeRowE (fn : MyTime → Int → Int × Int) (strict : Bool) :
    Option MyTime → Except EvalErr (Option Int)
  | none => .ok none
  | some d =>
    if d.invalidZero then
      if strict then .error .wrongValue else .ok none
    else .ok (some (yearWeekCombine (fn d 0).1 (fn d 0).2))

/-- `builtinYearWeekWithModeSig.vecEvalInt` over a batch. -/
def yearWeekWithModeVec (fn : MyTime → Int → Int × Int) (strict : Bool)
    (dates : List (Option MyTime)) (modes : List (Option Int)) :
    Except EvalErr (List (Option Int)) :=
  vecEval (ywModeRowE fn strict) (dates.zip modes)

/-- `builtinYearWeekWithoutModeSig.vecEvalInt` over a batch. -/
def yearWeekWithoutModeVec (fn : MyTime → Int → Int × Int) (strict : Bool)
    (dates : List (Option MyTime)) : Except EvalErr (List (Option Int)) :=
  vecEval (ywNoModeRowE fn strict) dates

/-! ## Scratch-buffer accounting

A ledger of `bufAllocator.get` / `bufAllocator.put` calls, used to check
the scoped-resource discipline of §4.1 against the evaluators' control
flow. -/

structure AllocState where
  gets : Nat
  puts : Nat
deriving DecidableEq

/-- `builtinYearWeekWithModeSig.vecEvalInt` with its buffer accounting.
The function body acquires `buf1`, evaluates the date argument, acquires
`buf2`, evaluates the mode argument, and runs the row loop; the source
contains no `put` call (and no `defer`) for either buffer, so no exit path
releases them.  The argument evaluations are external collaborators and are
passed in as `Except` values. -/
def yearWeekWithModeAlloc (fn : MyTime → Int → Int × Int) (strict : Bool)
    (arg0 : Except EvalErr (List (Option MyTime)))
    (arg1 : Except EvalErr (List (Option Int))) :
    Except EvalErr (List (Option Int)) × AllocState :=
  match arg0 with
  | .error e => (.error e, ⟨1, 0⟩)
  | .ok dates =>
    match arg1 with
    | .error e => (.error e, ⟨2, 0⟩)
    | .ok modes => (vecEval (ywModeRowE fn strict) (dates.zip modes), ⟨2, 0⟩)

/-- `builtinMonthSig.vecEvalInt` with its buffer accounting: the single
buffer is acquired once and `defer b.bufAllocator.put(buf)` releases it on
every exit path. -/
def monthVecAlloc (noZeroDate strict : Bool)
    (arg0 : Except EvalErr (List (Option MyTime))) :
    Except EvalErr (List (Option Int × Nat)) × AllocState :=
  match arg0 with
  | .error e => (.error e, ⟨1, 1⟩)
  | .ok rows => (vecEval (monthRowE noZeroDate strict) rows, ⟨1, 1⟩)

/-! ## MAKEDATE -/

/-- The two-digit year offset of MAKEDATE: years `0–69` are offset by
`+2000` and `70–99` by `+1900`. -/
def makeDateAdjYear (year : Int) : Int :=
  if year < 70 then year + 2000 else if year < 100 then year + 1900 else year

/-- The per-row computation of `builtinMakeDateSig.vecEvalTime`: the row is
null for `day ≤ 0` or a year outside `[0, 9999]`; the year is offset by
`makeDateAdjYear`; the result is the date reached by advancing `day - 1`
days from January 1 of the offset year (`types.TimeFromDays` of
`TimestampDiff("DAY", zero, Jan 1) + day - 1`), and the row is null when
the synthesized date is the zero value or its year exceeds 9999.  The
`retTimestamp == 0` branch routes through the invalid-time policy (fatal
under strict mode). -/
def makeDateRow (strict : Bool) (year day : Int) : Except EvalErr (Option MyTime) :=
  if day ≤ 0 || year < 0 || year > 9999 then .ok none
  else if (dayNumber (makeDateAdjYear year).toNat 1 1 : Int) = 0 then
    (if strict then .error .wrongValue else .ok none)
  else if (dateFromDayNumber ((dayNumber (makeDateAdjYear year).toNat 1 1 : Int) + day - 1).toNat).isZero
      || 9999 < (dateFromDayNumber ((dayNumber (makeDateAdjYear year).toNat 1 1 : Int) + day - 1).toNat).year
    then .ok none
  else .ok (some (dateFromDayNumber ((dayNumber (makeDateAdjYear year).toNat 1 1 : Int) + day - 1).toNat))

/-- Row body of `builtinMakeDateSig.vecEvalTime`: the nulls of both integer
arguments are merged first. -/
def makeDateRowE (strict : Bool) : Option Int × Option Int → Except EvalErr (Option MyTime)
  | (some y, some d) => makeDateRow strict y d
  | _ => .ok none

/-- `builtinMakeDateSig.vecEvalTime` over a batch. -/
def makeDateVec (strict : Bool) (ys ds : List (Option Int)) :
    Except EvalErr (List (Option MyTime)) :=
  vecEval (makeDateRowE strict) (ys.zip ds)

/-! ## SEC_TO_TIME -/

/-- Truncation of a rational towards negative infinity (`q.num / q.den`);
agrees with Go's `int64(f)` float conversion on the non-negative values it
is applied to below. -/
def ratTrunc (q : ℚ) : Int := q.num / q.den

/-- The components `builtinSecToTimeSig.vecEvalDuration` computes for one
row before assembling the duration: sign, clamped hour/minute, and the
second component with the input's fractional part appended
(`secondDemical`). -/
structure SecToTimeOut where
  negative : Bool
  hour : Int
  minute : Int
  secondFrac : ℚ
deriving DecidableEq

/-- The per-row computation of `builtinSecToTimeSig.vecEvalDuration`: the
sign is split off, the absolute seconds are truncated to an integer, the
hour is clamped to 838 (with minute and second forced to 59), and the
fractional part of the input is added to the second component. -/
def secToTimeRow (x : ℚ) : SecToTimeOut :=
  if 838 < ratTrunc |x| / 3600 then
    ⟨decide (x < 0), 838, 59, 59 + (|x| - (ratTrunc |x| : ℚ))⟩
  else
    ⟨decide (x < 0), ratTrunc |x| / 3600, ratTrunc |x| % 3600 / 60,
      ((ratTrunc |x| % 60 : Int) : ℚ) + (|x| - (ratTrunc |x| : ℚ))⟩

/-- Modelled from the spec: the elapsed-seconds value of the duration
assembled from the row components (the `types.ParseDuration` call, which
is outside the embedded file, parses exactly the formatted
`sign hour:minute:secondFrac` components). -/
def secToTimeValue (x : ℚ) : ℚ :=
  (if (secToTimeRow x).negative then -1 else 1) *
    ((secToTimeRow x).hour * 3600 + (secToTimeRow x).minute * 60 + (secToTimeRow x).secondFrac)

/-! ## TIMESTAMPADD -/

/-- The library operations `builtinTimestampAddSig.vecEvalString` delegates
to (outside of the embedded file): `GoTime` conversion, `Add` by a duration in
nanoseconds, calendar `AddDate`, and the `Check` validation of the result.
They are abstracted over the instant type `τ`. -/
structure TimeOps (τ : Type) where
  goTime : MyTime → Except EvalErr τ
  add : τ → Int → τ
  addDate : τ → Int → Int → Int → τ
  check : τ → Bool

/-- The unit switch of `builtinTimestampAddSig.vecEvalString`: each
recognized unit produces the shifted instant and the result's
fractional-second precision — `types.MaxFsp` (6) for MICROSECOND, the
default precision 0 for every other unit; an unrecognized unit falls
through to `none` (a hard `types.ErrWrongValue` error). -/
def timestampAddCompute (ops : TimeOps τ) (tm1 : τ) (unit : String) (v : Int) :
    Option (τ × Int) :=
  if unit = "MICROSECOND" then some (ops.add tm1 (v * 1000), 6)
  else if unit = "SECOND" then some (ops.add tm1 (v * 1000000000), 0)
  else if unit = "MINUTE" then some (ops.add tm1 (v * 60000000000), 0)
  else if unit = "HOUR" then some (ops.add tm1 (v * 3600000000000), 0)
  else if unit = "DAY" then some (ops.addDate tm1 0 0 v, 0)
  else if unit = "WEEK" then some (ops.addDate tm1 0 0 (7 * v), 0)
  else if unit = "MONTH" then some (ops.addDate tm1 0 v 0, 0)
  else if unit = "QUARTER" then some (ops.addDate tm1 0 (3 * v) 0, 0)
  else if unit = "YEAR" then some (ops.addDate tm1 v 0 0, 0)
  else none

/-- The per-row computation of `builtinTimestampAddSig.vecEvalString` (up to
the final stringification): convert the argument to a library instant, run
the unit switch (an unrecognized unit is a hard wrong-value error), and
validate the result — an invalid result is routed through the invalid-time
policy (fatal under strict mode, otherwise a null row). -/
def timestampAddRow (ops : TimeOps τ) (strict : Bool) (unit : String) (v : Int)
    (arg : MyTime) : Except EvalErr (Option (τ × Int)) :=
  match ops.goTime arg with
  | .error e => .error e
  | .ok tm1 =>
    match timestampAddCompute ops tm1 unit v with
    | none => .error .wrongValue
    | some (tb, fsp) =>
      if ops.check tb then .ok (some (tb, fsp))
      else if strict then .error .wrongValue else .ok none

/-- Row body over the three argument columns (unit string, delta, datetime):
a null in any argument makes the row null before any computation. -/
def timestampAddRowE (ops : TimeOps τ) (strict : Bool) :
    Option String × Option Int × Option MyTime → Except EvalErr (Option (τ × Int))
  | (some unit, some v, some arg) => timestampAddRow ops strict unit v arg
  | _ => .ok none

/-- `builtinTimestampAddSig.vecEvalString` over a batch. -/
def timestampAddVec (ops : TimeOps τ) (strict : Bool)
    (units : List (Option String)) (vs : List (Option Int))
    (args : List (Option MyTime)) : Except EvalErr (List (Option (τ × Int))) :=
  vecEval (timestampAddRowE ops strict) (units.zip (vs.zip args))

/-- The nine unit tags TIMESTAMPADD recognizes. -/
def timestampAddUnits : List String :=
  ["MICROSECOND", "SECOND", "MINUTE", "HOUR", "DAY", "WEEK", "MONTH", "QUARTER", "YEAR"]

/-! ## Supporting lemmas -/

theorem mem_getElem? {xs : List α} {a : α} (h : a ∈ xs) : ∃ i : Nat, xs[i]? = some a := by
  induction xs with
  | nil => simp at h
  | cons x xs ih =>
    rcases List.mem_cons.mp h with rfl | hmem
    · exact ⟨0, by simp⟩
    · obtain ⟨i, hi⟩ := ih hmem
      exact ⟨i + 1, by simpa using hi⟩

theorem yearWeekCombine_nonneg (y w : Int) : 0 ≤ yearWeekCombine y w := by
  unfold yearWeekCombine toInt64
  split
  · omega
  · split <;> omega

theorem period2Month_month2Period (m : Nat) : period2Month (month2Period m) = m := by
  unfold period2Month month2Period
  omega

/-! ## Claims -/

/-- C1: the spec's scoped-resource discipline requires every scratch buffer
obtained with `get` to be returned with `put` exactly once on every exit
path, and claims `builtinYearWeekWithModeSig.vecEvalInt` releases both of
its buffers before returning.  The code violates this: the evaluator's
accounting shows two `get`s and zero `put`s on a completed call (the source
has no `put` at all for `buf1`/`buf2`), while `builtinMonthSig.vecEvalInt`
balances its ledger on every exit path as the spec demands. -/
theorem yearWeekWithMode_leaks_both_buffers :
    (yearWeekWithModeAlloc (fun t _ => ((t.year : Int), 1)) false
        (.ok [some ⟨2024, 1, 10, 0, 0, 0, 0⟩]) (.ok [some 0])).2 = ⟨2, 0⟩ ∧
    (yearWeekWithModeAlloc (fun t _ => ((t.year : Int), 1)) false
        (.ok [some ⟨2024, 1, 10, 0, 0, 0, 0⟩]) (.ok [some 0])).1 =
      .ok [some 202401] ∧
    (∀ (fn : MyTime → Int → Int × Int) (strict : Bool) arg0 arg1,
      (yearWeekWithModeAlloc fn strict arg0 arg1).2.puts = 0) ∧
    (∀ (noZeroDate strict : Bool) arg0,
      (monthVecAlloc noZeroDate strict arg0).2.puts =
        (monthVecAlloc noZeroDate strict arg0).2.gets) := by
  refine ⟨rfl, rfl, ?_, ?_⟩
  · intro fn strict arg0 arg1
    cases arg0 with
    | error e => rfl
    | ok dates => cases arg1 with
      | error e => rfl
      | ok modes => rfl
  · intro noZeroDate strict arg0
    cases arg0 <;> rfl

/-- C4: for PERIOD_ADD and PERIOD_DIFF, nulls are checked first — a row with
any NULL argument is set null with no validity check or hard error, even
when its period argument is invalid — and a non-null row whose period
argument fails the validity check makes the whole batch call fail with the
incorrect-arguments hard error. -/
theorem period_nulls_first_invalid_is_hard_error :
    (∀ (op oq : Option Int), op = none ∨ oq = none →
      periodAddRowE (op, oq) = .ok none ∧ periodDiffRowE (op, oq) = .ok none) ∧
    (∀ ps ns out (i : Nat) (op oq : Option Int),
      periodAddVec ps ns = .ok out → ps[i]? = some op → ns[i]? = some oq →
      op = none ∨ oq = none → out[i]? = some none) ∧
    (∀ ps ns out (i : Nat) (op oq : Option Int),
      periodDiffVec ps ns = .ok out → ps[i]? = some op → ns[i]? = some oq →
      op = none ∨ oq = none → out[i]? = some none) ∧
    (∀ ps ns (i : Nat) (p n : Int),
      ps[i]? = some (some p) → ns[i]? = some (some n) → validPeriod p = false →
      periodAddVec ps ns = .error .incorrectArgs) ∧
    (∀ ps ns (i : Nat) (p n : Int),
      ps[i]? = some (some p) → ns[i]? = some (some n) →
      validPeriod p = false ∨ validPeriod n = false →
      periodDiffVec ps ns = .error .incorrectArgs) ∧
    (∀ ps ns, (∀ (i : Nat) (p n : Int),
        ps[i]? = some (some p) → ns[i]? = some (some n) → validPeriod p = true) →
      ∃ out, periodAddVec ps ns = .ok out) := by
  have hnull : ∀ (op oq : Option Int), op = none ∨ oq = none →
      periodAddRowE (op, oq) = .ok none ∧ periodDiffRowE (op, oq) = .ok none := by
    intro op oq h
    rcases h with rfl | rfl
    · exact ⟨rfl, rfl⟩
    · cases op <;> exact ⟨rfl, rfl⟩
  have haddclass : ∀ (x : Option Int × Option Int) e, periodAddRowE x = .error e →
      e = .incorrectArgs := by
    rintro ⟨op, oq⟩ e hx
    cases op with
    | none => exact absurd hx (by simp [show periodAddRowE (none, oq) = .ok none from rfl])
    | some p =>
      cases oq with
      | none =>
        exact absurd hx (by simp [show periodAddRowE (some p, none) = .ok none from rfl])
      | some n =>
        unfold periodAddRowE at hx
        dsimp only at hx
        by_cases hv : validPeriod p = true
        · rw [if_pos hv] at hx
          exact absurd hx (by simp)
        · rw [if_neg hv] at hx
          simp only [Except.error.injEq] at hx
          exact hx.symm
  have hdiffclass : ∀ (x : Option Int × Option Int) e, periodDiffRowE x = .error e →
      e = .incorrectArgs := by
    rintro ⟨op, oq⟩ e hx
    cases op with
    | none => exact absurd hx (by simp [show periodDiffRowE (none, oq) = .ok none from rfl])
    | some p =>
      cases oq with
      | none =>
        exact absurd hx (by simp [show periodDiffRowE (some p, none) = .ok none from rfl])
      | some n =>
        unfold periodDiffRowE at hx
        dsimp only at hx
        by_cases hv : (!validPeriod p || !validPeriod n) = true
        · rw [if_pos hv] at hx
          simp only [Except.error.injEq] at hx
          exact hx.symm
        · rw [if_neg hv] at hx
          exact absurd hx (by simp)
  refine ⟨hnull, ?_, ?_, ?_, ?_, ?_⟩
  · intro ps ns out i op oq hok hp hn hnone
    obtain ⟨b, hb, hout⟩ := vecEval_ok_get hok i (op, oq) (zip_getElem?.mpr ⟨hp, hn⟩)
    rw [(hnull op oq hnone).1] at hb
    simp only [Except.ok.injEq] at hb
    subst hb
    exact hout
  · intro ps ns out i op oq hok hp hn hnone
    obtain ⟨b, hb, hout⟩ := vecEval_ok_get hok i (op, oq) (zip_getElem?.mpr ⟨hp, hn⟩)
    rw [(hnull op oq hnone).2] at hb
    simp only [Except.ok.injEq] at hb
    subst hb
    exact hout
  · intro ps ns i p n hp hn hbad
    refine vecEval_error_exact (zip_getElem?.mpr ⟨hp, hn⟩) ?_ haddclass
    simp [periodAddRowE, hbad]
  · intro ps ns i p n hp hn hbad
    refine vecEval_error_exact (zip_getElem?.mpr ⟨hp, hn⟩) ?_ hdiffclass
    unfold periodDiffRowE
    rcases hbad with hbad | hbad <;> simp [hbad]
  · intro ps ns h
    refine vecEval_ok_total ?_
    intro a ha
    obtain ⟨i, hi⟩ := mem_getElem? ha
    obtain ⟨op, oq⟩ := a
    have hzip := zip_getElem?.mp hi
    cases op with
    | none => exact ⟨none, rfl⟩
    | some p => cases oq with
      | none => exact ⟨none, rfl⟩
      | some n =>
        refine ⟨some (periodAddRow p n), ?_⟩
        simp [periodAddRowE, h i p n hzip.1 hzip.2]

/-- C4 witness: a two-row batch where the first row has an invalid period
but a NULL delta — the row is set null, no error — and a singleton batch
with an invalid non-null period fails with the incorrect-arguments error. -/
theorem period_nulls_first_invalid_is_hard_error_witness :
    periodAddRowE (some 13, none) = .ok none ∧
    periodAddVec [some 13, some 200101] [none, some 2] = .ok [none, some 200103] ∧
    periodAddVec [some 13] [some 1] = .error .incorrectArgs ∧
    periodDiffVec [some 200101] [some 13] = .error .incorrectArgs := by
  refine ⟨(period_nulls_first_invalid_is_hard_error.1 (some 13) none (Or.inr rfl)).1,
    rfl, ?_, ?_⟩
  · exact period_nulls_first_invalid_is_hard_error.2.2.2.1 [some 13] [some 1] 0 13 1
      rfl rfl (by decide)
  · exact period_nulls_first_invalid_is_hard_error.2.2.2.2.1 [some 200101] [some 13] 0
      200101 13 rfl rfl (Or.inr (by decide))

/-- C5: for every valid date and every week-numbering mode, the YEARWEEK
evaluators (with and without an explicit mode argument) never place a
negative value in the result column: the signed 64-bit composite
`week + year*100` is replaced by the unsigned 32-bit maximum whenever it is
negative, for any behavior of the library week-numbering function. -/
theorem yearweek_never_negative :
    ∀ (fn : MyTime → Int → Int × Int) (strict : Bool)
      (dates : List (Option MyTime)) (modes : List (Option Int))
      (out : List (Option Int)),
      (yearWeekWithModeVec fn strict dates modes = .ok out ∨
       yearWeekWithoutModeVec fn strict dates = .ok out) →
      ∀ (i : Nat) (v : Int), out[i]? = some (some v) → 0 ≤ v := by
  intro fn strict dates modes out hout i v hv
  rcases hout with hok | hok
  · obtain ⟨a, _, hfa⟩ := vecEval_ok_values hok i (some v) hv
    obtain ⟨od, om⟩ := a
    cases od with
    | none => exact absurd hfa (by simp [show ywModeRowE fn strict (none, om) = .ok none from rfl])
    | some d =>
      unfold ywModeRowE at hfa
      dsimp only at hfa
      by_cases hz : d.isZero = true
      · rw [if_pos hz] at hfa
        by_cases hs : strict = true
        · rw [if_pos hs] at hfa
          exact absurd hfa (by simp)
        · rw [if_neg hs] at hfa
          exact absurd hfa (by simp)
      · rw [if_neg hz] at hfa
        simp only [Except.ok.injEq, Option.some.injEq] at hfa
        rw [← hfa]
        exact yearWeekCombine_nonneg _ _
  · obtain ⟨a, _, hfa⟩ := vecEval_ok_values hok i (some v) hv
    cases a with
    | none => exact absurd hfa (by simp [show ywNoModeRowE fn strict none = .ok none from rfl])
    | some d =>
      unfold ywNoModeRowE at hfa
      dsimp only at hfa
      by_cases hz : d.invalidZero = true
      · rw [if_pos hz] at hfa
        by_cases hs : strict = true
        · rw [if_pos hs] at hfa
          exact absurd hfa (by simp)
        · rw [if_neg hs] at hfa
          exact absurd hfa (by simp)
      · rw [if_neg hz] at hfa
        simp only [Except.ok.injEq, Option.some.injEq] at hfa
        rw [← hfa]
        exact yearWeekCombine_nonneg _ _

/-- C5 witness: a concrete one-row batch through the mode-taking evaluator
yields the non-negative composite 202401. -/
theorem yearweek_never_negative_witness : (0 : Int) ≤ 202401 :=
  yearweek_never_negative (fun t _ => ((t.year : Int), 1)) false
    [some ⟨2024, 1, 10, 0, 0, 0, 0⟩] [some 0] [some 202401]
    (Or.inl rfl) 0 202401 rfl

/-- C10: in `builtinYearWeekWithModeSig.vecEvalInt` only the date argument's
nulls are merged into the result; a row with a non-null, non-zero date and a
NULL mode is not set null — the mode is treated as 0 and the row receives
the same value as YEARWEEK(date, 0). -/
theorem yearweek_null_mode_treated_as_zero :
    ∀ (fn : MyTime → Int → Int × Int) (strict : Bool)
      (dates : List (Option MyTime)) (modes : List (Option Int))
      (out : List (Option Int)) (i : Nat) (d : MyTime),
      yearWeekWithModeVec fn strict dates modes = .ok out →
      dates[i]? = some (some d) → modes[i]? = some none → d.isZero = false →
      out[i]? = some (some (yearWeekCombine (fn d 0).1 (fn d 0).2)) ∧
      ywModeRowE fn strict (some d, none) = ywModeRowE fn strict (some d, some 0) := by
  intro fn strict dates modes out i d hok hd hm hz
  have hrow : ywModeRowE fn strict (some d, none) =
      .ok (some (yearWeekCombine (fn d 0).1 (fn d 0).2)) := by
    unfold ywModeRowE
    dsimp only
    rw [if_neg (by simp [hz])]
    rfl
  obtain ⟨b, hb, hout⟩ := vecEval_ok_get hok i (some d, none) (zip_getElem?.mpr ⟨hd, hm⟩)
  rw [hrow] at hb
  simp only [Except.ok.injEq] at hb
  subst hb
  refine ⟨hout, ?_⟩
  rw [hrow]
  unfold ywModeRowE
  dsimp only
  rw [if_neg (by simp [hz])]
  rfl

/-- C10 witness: a concrete batch with a NULL mode row; the row is non-null
and carries the mode-0 value. -/
theorem yearweek_null_mode_treated_as_zero_witness :
    yearWeekWithModeVec (fun t m => ((t.year : Int), m + 1)) false
      [some ⟨2024, 1, 10, 0, 0, 0, 0⟩] [none] = .ok [some 202401] ∧
    ([some (202401 : Int)] : List (Option Int))[0]? = some (some (202401 : Int)) := by
  have h1 : yearWeekWithModeVec (fun t m => ((t.year : Int), m + 1)) false
      [some ⟨2024, 1, 10, 0, 0, 0, 0⟩] [none] = .ok [some 202401] := rfl
  refine ⟨h1, ?_⟩
  have h2 := (yearweek_null_mode_treated_as_zero (fun t m => ((t.year : Int), m + 1)) false
    [some ⟨2024, 1, 10, 0, 0, 0, 0⟩] [none] [some 202401] 0 ⟨2024, 1, 10, 0, 0, 0, 0⟩
    h1 rfl rfl rfl).1
  exact h2

/-- C9: for every non-null, non-invalid date the vectorized WEEKDAY
evaluator and the DAYNAME index computation return
`(libraryWeekday + 6) % 7`, a value in `[0, 6]` with Monday mapped to 0 and
Sunday to 6; `2024-01-01`, a Monday, yields 0. -/
theorem weekday_monday_first :
    (∀ (strict : Bool) (rows : List (Option MyTime)) (out : List (Option Int))
       (i : Nat) (d : MyTime),
       weekDayVec strict rows = .ok out → rows[i]? = some (some d) →
       d.isZero = false → out[i]? = some (some (mysqlWeekday d))) ∧
    (∀ (strict : Bool) (rows : List (Option MyTime)) (out : List (Option Int))
       (i : Nat) (d : MyTime),
       dayNameVec strict rows = .ok out → rows[i]? = some (some d) →
       d.invalidZero = false → out[i]? = some (some (mysqlWeekday d))) ∧
    (∀ d : MyTime, mysqlWeekday d = ((sundayFirstWeekday d + 6) % 7 : Nat)) ∧
    (∀ d : MyTime, 0 ≤ mysqlWeekday d ∧ mysqlWeekday d < 7) ∧
    (∀ d : MyTime, sundayFirstWeekday d = 1 → mysqlWeekday d = 0) ∧
    (∀ d : MyTime, sundayFirstWeekday d = 0 → mysqlWeekday d = 6) ∧
    sundayFirstWeekday ⟨2024, 1, 1, 0, 0, 0, 0⟩ = 1 ∧
    mysqlWeekday ⟨2024, 1, 1, 0, 0, 0, 0⟩ = 0 := by
  refine ⟨?_, ?_, ?_, ?_, ?_, ?_, by decide, by decide⟩
  · intro strict rows out i d hok hd hz
    obtain ⟨b, hb, hout⟩ := vecEval_ok_get hok i (some d) hd
    have hrow : weekDayRowE strict (some d) = .ok (some (mysqlWeekday d)) := by
      unfold weekDayRowE
      dsimp only
      rw [if_neg (by simp [hz])]
    rw [hrow] at hb
    simp only [Except.ok.injEq] at hb
    subst hb
    exact hout
  · intro strict rows out i d hok hd hz
    obtain ⟨b, hb, hout⟩ := vecEval_ok_get hok i (some d) hd
    have hrow : dayNameRowE strict (some d) = .ok (some (mysqlWeekday d)) := by
      unfold dayNameRowE
      dsimp only
      rw [if_neg (by simp [hz])]
    rw [hrow] at hb
    simp only [Except.ok.injEq] at hb
    subst hb
    exact hout
  · intro d; rfl
  · intro d
    unfold mysqlWeekday
    constructor
    · exact Int.ofNat_nonneg _
    · exact_mod_cast Nat.mod_lt _ (by omega)
  · intro d h
    unfold mysqlWeekday
    rw [h]
    decide
  · intro d h
    unfold mysqlWeekday
    rw [h]
    decide

/-- C9 witness: a concrete one-row batch at 2024-01-01 (a Monday) yields 0,
through both the WEEKDAY evaluator and the DAYNAME index. -/
theorem weekday_monday_first_witness :
    weekDayVec false [some ⟨2024, 1, 1, 0, 0, 0, 0⟩] = .ok [some 0] ∧
    ([some (0 : Int)] : List (Option Int))[0]? =
      some (some (mysqlWeekday ⟨2024, 1, 1, 0, 0, 0, 0⟩)) ∧
    ([some (0 : Int)] : List (Option Int))[0]? =
      some (some (mysqlWeekday ⟨2024, 1, 1, 0, 0, 0, 0⟩)) := by
  refine ⟨rfl, ?_, ?_⟩
  · exact weekday_monday_first.1 false [some ⟨2024, 1, 1, 0, 0, 0, 0⟩] [some 0] 0
      ⟨2024, 1, 1, 0, 0, 0, 0⟩ rfl rfl (by decide)
  · exact weekday_monday_first.2.1 false [some ⟨2024, 1, 1, 0, 0, 0, 0⟩] [some 0] 0
      ⟨2024, 1, 1, 0, 0, 0, 0⟩ rfl rfl (by decide)

/-- C2 counterexample: the claim says that with `NoZeroDate` on, a zero-date
row is set null with a warning "the batch call still succeeding"; but the
invalid-time policy resolves to fatal per session mode, so under strict mode
the whole MONTH / YEAR batch call fails instead of succeeding. -/
theorem month_year_zero_date_strict_fails :
    monthVec true true [some zeroTime] = .error .wrongValue ∧
    yearVec true true [some zeroTime] = .error .wrongValue := ⟨rfl, rfl⟩

/-- C2 (amended): for every non-null zero-date row of the vectorized MONTH
and YEAR evaluators: with `NoZeroDate` off the row receives 0 with no
warning and the batch call always succeeds; with `NoZeroDate` on and the
invalid-time policy resolving to warn-and-null (non-strict), the row is set
null with one warning appended and the batch call succeeds; when the policy
resolves to fatal (strict mode) the whole batch call fails with the
wrong-value error. -/
theorem month_year_zero_date_policy :
    (∀ (strict : Bool) (rows : List (Option MyTime)) (out : List (Option Int × Nat))
       (i : Nat) (d : MyTime),
       monthVec false strict rows = .ok out → rows[i]? = some (some d) →
       d.isZero = true → out[i]? = some (some 0, 0)) ∧
    (∀ (strict : Bool) (rows : List (Option MyTime)),
       ∃ out, monthVec false strict rows = .ok out) ∧
    (∀ (rows : List (Option MyTime)) (out : List (Option Int × Nat)) (i : Nat) (d : MyTime),
       monthVec true false rows = .ok out → rows[i]? = some (some d) →
       d.isZero = true → out[i]? = some (none, 1)) ∧
    (∀ (rows : List (Option MyTime)), ∃ out, monthVec true false rows = .ok out) ∧
    (∀ (rows : List (Option MyTime)) (i : Nat) (d : MyTime),
       rows[i]? = some (some d) → d.isZero = true →
       monthVec true true rows = .error .wrongValue) ∧
    (∀ (strict : Bool) (rows : List (Option MyTime)) (out : List (Option Int × Nat))
       (i : Nat) (d : MyTime),
       yearVec false strict rows = .ok out → rows[i]? = some (some d) →
       d.isZero = true → out[i]? = some (some 0, 0)) ∧
    (∀ (strict : Bool) (rows : List (Option MyTime)),
       ∃ out, yearVec false strict rows = .ok out) ∧
    (∀ (rows : List (Option MyTime)) (out : List (Option Int × Nat)) (i : Nat) (d : MyTime),
       yearVec true false rows = .ok out → rows[i]? = some (some d) →
       d.isZero = true → out[i]? = some (none, 1)) ∧
    (∀ (rows : List (Option MyTime)), ∃ out, yearVec true false rows = .ok out) ∧
    (∀ (rows : List (Option MyTime)) (i : Nat) (d : MyTime),
       rows[i]? = some (some d) → d.isZero = true →
       yearVec true true rows = .error .wrongValue) := by
  have hmz : ∀ (strict : Bool) (d : MyTime), d.isZero = true →
      monthRowE false strict (some d) = .ok (some 0, 0) := by
    intro strict d hz
    simp [monthRowE, hz]
  have hmz1 : ∀ (d : MyTime), d.isZero = true →
      monthRowE true false (some d) = .ok (none, 1) := by
    intro d hz
    simp [monthRowE, hz]
  have hmzs : ∀ (d : MyTime), d.isZero = true →
      monthRowE true true (some d) = .error .wrongValue := by
    intro d hz
    simp [monthRowE, hz]
  have hmtotal : ∀ (strict : Bool) (a : Option MyTime),
      ∃ b, monthRowE false strict a = .ok b := by
    intro strict a
    cases a with
    | none => exact ⟨(none, 0), rfl⟩
    | some d =>
      by_cases hz : d.isZero = true
      · exact ⟨(some 0, 0), hmz strict d hz⟩
      · exact ⟨(some (d.month : Int), 0), by simp [monthRowE, hz]⟩
  have hmtotal1 : ∀ (a : Option MyTime), ∃ b, monthRowE true false a = .ok b := by
    intro a
    cases a with
    | none => exact ⟨(none, 0), rfl⟩
    | some d =>
      by_cases hz : d.isZero = true
      · exact ⟨(none, 1), hmz1 d hz⟩
      · exact ⟨(some (d.month : Int), 0), by simp [monthRowE, hz]⟩
  have hmclass : ∀ (a : Option MyTime) e, monthRowE true true a = .error e →
      e = .wrongValue := by
    intro a e ha
    cases a with
    | none => exact absurd ha (by simp [show monthRowE true true none = .ok (none, 0) from rfl])
    | some d =>
      by_cases hz : d.isZero = true
      · simp only [monthRowE, hz, if_true, if_pos, Except.error.injEq] at ha
        exact ha.symm
      · simp [monthRowE, hz] at ha
  have hyz : ∀ (strict : Bool) (d : MyTime), d.isZero = true →
      yearRowE false strict (some d) = .ok (some 0, 0) := by
    intro strict d hz
    simp [yearRowE, hz]
  have hyz1 : ∀ (d : MyTime), d.isZero = true →
      yearRowE true false (some d) = .ok (none, 1) := by
    intro d hz
    simp [yearRowE, hz]
  have hyzs : ∀ (d : MyTime), d.isZero = true →
      yearRowE true true (some d) = .error .wrongValue := by
    intro d hz
    simp [yearRowE, hz]
  have hytotal : ∀ (strict : Bool) (a : Option MyTime),
      ∃ b, yearRowE false strict a = .ok b := by
    intro strict a
    cases a with
    | none => exact ⟨(none, 0), rfl⟩
    | some d =>
      by_cases hz : d.isZero = true
      · exact ⟨(some 0, 0), hyz strict d hz⟩
      · exact ⟨(some (d.year : Int), 0), by simp [yearRowE, hz]⟩
  have hytotal1 : ∀ (a : Option MyTime), ∃ b, yearRowE true false a = .ok b := by
    intro a
    cases a with
    | none => exact ⟨(none, 0), rfl⟩
    | some d =>
      by_cases hz : d.isZero = true
      · exact ⟨(none, 1), hyz1 d hz⟩
      · exact ⟨(some (d.year : Int), 0), by simp [yearRowE, hz]⟩
  have hyclass : ∀ (a : Option MyTime) e, yearRowE true true a = .error e →
      e = .wrongValue := by
    intro a e ha
    cases a with
    | none => exact absurd ha (by simp [show yearRowE true true none = .ok (none, 0) from rfl])
    | some d =>
      by_cases hz : d.isZero = true
      · simp only [yearRowE, hz, if_true, if_pos, Except.error.injEq] at ha
        exact ha.symm
      · simp [yearRowE, hz] at ha
  refine ⟨?_, ?_, ?_, ?_, ?_, ?_, ?_, ?_, ?_, ?_⟩
  · intro strict rows out i d hok hd hz
    obtain ⟨b, hb, hout⟩ := vecEval_ok_get hok i (some d) hd
    rw [hmz strict d hz] at hb
    simp only [Except.ok.injEq] at hb
    subst hb
    exact hout
  · intro strict rows
    exact vecEval_ok_total (fun a _ => hmtotal strict a)
  · intro rows out i d hok hd hz
    obtain ⟨b, hb, hout⟩ := vecEval_ok_get hok i (some d) hd
    rw [hmz1 d hz] at hb
    simp only [Except.ok.injEq] at hb
    subst hb
    exact hout
  · intro rows
    exact vecEval_ok_total (fun a _ => hmtotal1 a)
  · intro rows i d hd hz
    exact vecEval_error_exact hd (hmzs d hz) hmclass
  · intro strict rows out i d hok hd hz
    obtain ⟨b, hb, hout⟩ := vecEval_ok_get hok i (some d) hd
    rw [hyz strict d hz] at hb
    simp only [Except.ok.injEq] at hb
    subst hb
    exact hout
  · intro strict rows
    exact vecEval_ok_total (fun a _ => hytotal strict a)
  · intro rows out i d hok hd hz
    obtain ⟨b, hb, hout⟩ := vecEval_ok_get hok i (some d) hd
    rw [hyz1 d hz] at hb
    simp only [Except.ok.injEq] at hb
    subst hb
    exact hout
  · intro rows
    exact vecEval_ok_total (fun a _ => hytotal1 a)
  · intro rows i d hd hz
    exact vecEval_error_exact hd (hyzs d hz) hyclass

/-- C2 witness: one-row zero-date batches in the three mode combinations,
for both MONTH and YEAR. -/
theorem month_year_zero_date_policy_witness :
    ([(some (0 : Int), 0)] : List (Option Int × Nat))[0]? = some (some 0, 0) ∧
    ([((none : Option Int), 1)] : List (Option Int × Nat))[0]? = some (none, 1) ∧
    monthVec true true [some zeroTime] = .error .wrongValue ∧
    ([(some (0 : Int), 0)] : List (Option Int × Nat))[0]? = some (some 0, 0) ∧
    yearVec true true [some zeroTime] = .error .wrongValue := by
  have h1 : monthVec false false [some zeroTime] = .ok [(some 0, 0)] := rfl
  have h2 : monthVec true false [some zeroTime] = .ok [(none, 1)] := rfl
  have h3 : yearVec false false [some zeroTime] = .ok [(some 0, 0)] := rfl
  exact ⟨month_year_zero_date_policy.1 false [some zeroTime] [(some 0, 0)] 0 zeroTime
           h1 rfl (by decide),
         month_year_zero_date_policy.2.2.1 [some zeroTime] [(none, 1)] 0 zeroTime
           h2 rfl (by decide),
         month_year_zero_date_policy.2.2.2.2.1 [some zeroTime] 0 zeroTime rfl (by decide),
         month_year_zero_date_policy.2.2.2.2.2.1 false [some zeroTime] [(some 0, 0)] 0
           zeroTime h3 rfl (by decide),
         month_year_zero_date_policy.2.2.2.2.2.2.2.2.2 [some zeroTime] 0 zeroTime rfl
           (by decide)⟩

theorem timestampAddCompute_none {τ : Type} (ops : TimeOps τ) (tm1 : τ)
    (unit : String) (v : Int) (h : ¬ unit ∈ timestampAddUnits) :
    timestampAddCompute ops tm1 unit v = none := by
  simp only [timestampAddUnits, List.mem_cons, List.not_mem_nil, or_false, not_or] at h
  obtain ⟨h1, h2, h3, h4, h5, h6, h7, h8, h9⟩ := h
  unfold timestampAddCompute
  rw [if_neg h1, if_neg h2, if_neg h3, if_neg h4, if_neg h5, if_neg h6, if_neg h7,
    if_neg h8, if_neg h9]

theorem timestampAddCompute_fsp {τ : Type} (ops : TimeOps τ) (tm1 : τ)
    (unit : String) (v : Int) (tb : τ) (fsp : Int)
    (h : timestampAddCompute ops tm1 unit v = some (tb, fsp)) :
    fsp = 6 ↔ unit = "MICROSECOND" := by
  unfold timestampAddCompute at h
  split_ifs at h with h1 h2 h3 h4 h5 h6 h7 h8 h9 <;>
    simp only [Option.some.injEq, Prod.mk.injEq] at h
  · obtain ⟨-, hfsp⟩ := h
    exact iff_of_true (by omega) h1
  · obtain ⟨-, hfsp⟩ := h
    exact iff_of_false (by omega) h1
  · obtain ⟨-, hfsp⟩ := h
    exact iff_of_false (by omega) h1
  · obtain ⟨-, hfsp⟩ := h
    exact iff_of_false (by omega) h1
  · obtain ⟨-, hfsp⟩ := h
    exact iff_of_false (by omega) h1
  · obtain ⟨-, hfsp⟩ := h
    exact iff_of_false (by omega) h1
  · obtain ⟨-, hfsp⟩ := h
    exact iff_of_false (by omega) h1
  · obtain ⟨-, hfsp⟩ := h
    exact iff_of_false (by omega) h1
  · obtain ⟨-, hfsp⟩ := h
    exact iff_of_false (by omega) h1

/-- C8: for every non-null TIMESTAMPADD row, a unit string outside the nine
recognized tags aborts the whole batch call with the hard wrong-value error
(whatever the library time operations do), and the result's
fractional-second precision is the maximum 6 if and only if the unit is
MICROSECOND (all other units keep the default precision). -/
theorem timestampadd_bad_unit_fatal_fsp_microsecond :
    (∀ (τ : Type) (ops : TimeOps τ) (strict : Bool) (unit : String) (v : Int)
       (arg : MyTime) (tm1 : τ),
       ops.goTime arg = .ok tm1 → ¬ unit ∈ timestampAddUnits →
       timestampAddRow ops strict unit v arg = .error .wrongValue) ∧
    (∀ (τ : Type) (ops : TimeOps τ) (strict : Bool) (unit : String) (v : Int)
       (arg : MyTime) (tb : τ) (fsp : Int),
       timestampAddRow ops strict unit v arg = .ok (some (tb, fsp)) →
       (fsp = 6 ↔ unit = "MICROSECOND")) ∧
    (∀ (τ : Type) (ops : TimeOps τ) (strict : Bool)
       (units : List (Option String)) (vs : List (Option Int))
       (args : List (Option MyTime)) (i : Nat) (unit : String) (v : Int)
       (arg : MyTime) (tm1 : τ),
       units[i]? = some (some unit) → vs[i]? = some (some v) →
       args[i]? = some (some arg) → ops.goTime arg = .ok tm1 →
       ¬ unit ∈ timestampAddUnits →
       ∃ e, timestampAddVec ops strict units vs args = .error e) := by
  have hrow : ∀ (τ : Type) (ops : TimeOps τ) (strict : Bool) (unit : String) (v : Int)
      (arg : MyTime) (tm1 : τ),
      ops.goTime arg = .ok tm1 → ¬ unit ∈ timestampAddUnits →
      timestampAddRow ops strict unit v arg = .error .wrongValue := by
    intro τ ops strict unit v arg tm1 hgo hmem
    unfold timestampAddRow
    rw [hgo]
    dsimp only
    rw [timestampAddCompute_none ops tm1 unit v hmem]
  refine ⟨hrow, ?_, ?_⟩
  · intro τ ops strict unit v arg tb fsp hok
    unfold timestampAddRow at hok
    cases hgo : ops.goTime arg with
    | error e => rw [hgo] at hok; exact absurd hok (by simp)
    | ok tm1 =>
      rw [hgo] at hok
      dsimp only at hok
      cases hc : timestampAddCompute ops tm1 unit v with
      | none => rw [hc] at hok; exact absurd hok (by simp)
      | some p =>
        obtain ⟨tb', fsp'⟩ := p
        rw [hc] at hok
        dsimp only at hok
        by_cases hchk : ops.check tb' = true
        · rw [if_pos hchk] at hok
          simp only [Except.ok.injEq, Option.some.injEq, Prod.mk.injEq] at hok
          obtain ⟨-, h2⟩ := hok
          rw [← h2]
          exact timestampAddCompute_fsp ops tm1 unit v tb' fsp' hc
        · rw [if_neg hchk] at hok
          by_cases hs : strict = true
          · rw [if_pos hs] at hok
            exact absurd hok (by simp)
          · rw [if_neg hs] at hok
            exact absurd hok (by simp)
  · intro τ ops strict units vs args i unit v arg tm1 hu hv ha hgo hmem
    have hr : timestampAddRowE ops strict (some unit, some v, some arg) =
        .error .wrongValue := hrow τ ops strict unit v arg tm1 hgo hmem
    exact vecEval_error
      (show (units.zip (vs.zip args))[i]? = some (some unit, some v, some arg) from
        zip_getElem?.mpr ⟨hu, zip_getElem?.mpr ⟨hv, ha⟩⟩) hr

/-- C8 witness: with concrete integer-instant operations, the unrecognized
unit tag FORTNIGHT hard-fails a one-row batch with the wrong-value error,
MICROSECOND yields precision 6, and SECOND yields the default precision. -/
theorem timestampadd_bad_unit_fatal_fsp_microsecond_witness :
    timestampAddRow (⟨fun _ => .ok 0, fun t x => t + x, fun t a b c => t + a + b + c,
        fun _ => true⟩ : TimeOps Int) false "FORTNIGHT" 1 zeroTime =
      .error .wrongValue ∧
    ((6 : Int) = 6 ↔ "MICROSECOND" = "MICROSECOND") ∧
    ((0 : Int) = 6 ↔ "SECOND" = "MICROSECOND") ∧
    (∃ e, timestampAddVec (⟨fun _ => .ok 0, fun t x => t + x,
        fun t a b c => t + a + b + c, fun _ => true⟩ : TimeOps Int) false
        [some "FORTNIGHT"] [some 1] [some zeroTime] = .error e) := by
  have h1 : timestampAddRow (⟨fun _ => .ok 0, fun t x => t + x,
      fun t a b c => t + a + b + c, fun _ => true⟩ : TimeOps Int) false
      "MICROSECOND" 5 zeroTime = .ok (some (5000, 6)) := rfl
  have h2 : timestampAddRow (⟨fun _ => .ok 0, fun t x => t + x,
      fun t a b c => t + a + b + c, fun _ => true⟩ : TimeOps Int) false
      "SECOND" 5 zeroTime = .ok (some (5000000000, 0)) := rfl
  refine ⟨timestampadd_bad_unit_fatal_fsp_microsecond.1 Int _ false "FORTNIGHT" 1 zeroTime 0
      rfl (by decide), ?_, ?_, ?_⟩
  · exact timestampadd_bad_unit_fatal_fsp_microsecond.2.1 Int _ false "MICROSECOND" 5
      zeroTime 5000 6 h1
  · exact timestampadd_bad_unit_fatal_fsp_microsecond.2.1 Int _ false "SECOND" 5
      zeroTime 5000000000 0 h2
  · exact timestampadd_bad_unit_fatal_fsp_microsecond.2.2 Int _ false
      [some "FORTNIGHT"] [some 1] [some zeroTime] 0 "FORTNIGHT" 1 zeroTime 0
      rfl rfl rfl rfl (by decide)

/-- C3 counterexample: the round-trip law fails for sufficiently negative
month deltas.  `200101` is a valid period, but with `N = -24013` the shifted
month index is `-1`; the `uint64` cast wraps it, PERIOD_ADD stores the wrapped
re-encoded period, and PERIOD_DIFF then rejects that period with the hard
incorrect-arguments error instead of yielding `N`. -/
theorem period_roundtrip_fails_for_negative_overshoot :
    validPeriod 200101 = true ∧
    periodAddVec [some 200101] [some (-24013)] = .ok [some 6148914691236517176] ∧
    periodDiffVec [some 6148914691236517176] [some 200101] = .error .incorrectArgs := by
  refine ⟨by decide, rfl, rfl⟩

/-- C3 (amended): for every valid period P and every month delta N such that
the shifted month index `period2Month(P) + N` is non-negative and its
re-encoded period `month2Period(period2Month(P) + N)` passes the period
validity check, PERIOD_DIFF(PERIOD_ADD(P, N), P) evaluates to exactly N on a
non-null row; outside that range the round trip does not yield N (the
PERIOD_DIFF batch call hard-errors on the invalid re-encoded period, as the
counterexample shows). -/
theorem period_roundtrip_in_range :
    ∀ (p n : Int), validPeriod p = true →
      0 ≤ (period2Month (toUInt64 p) : Int) + n →
      validPeriod ((month2Period (((period2Month (toUInt64 p) : Int) + n).toNat) : Nat)) = true →
      periodAddVec [some p] [some n] = .ok [some (periodAddRow p n)] ∧
      periodDiffVec [some (periodAddRow p n)] [some p] = .ok [some n] := by
  intro p n hv hm hvR
  have hvp := hv
  simp only [validPeriod, Bool.and_eq_true, decide_eq_true_eq] at hvp
  obtain ⟨⟨⟨h0, h1⟩, -⟩, -⟩ := hvp
  -- the uint64 view of p
  have hPcast : ((toUInt64 p : Nat) : Int) = p := toUInt64_of_small h0 (by omega)
  set P : Nat := toUInt64 p with hP
  have hPle : P ≤ 999999 := by omega
  -- the month index of p
  set M : Nat := period2Month P with hM
  have hMle : M ≤ 120087 := by
    have hd : P / 100 ≤ 9999 := by omega
    unfold period2Month at hM
    omega
  -- the shifted month index
  set m : Int := (M : Int) + n with hmdef
  have hm0 : 0 ≤ m := hm
  have hmNcast : ((m.toNat : Nat) : Int) = m := Int.toNat_of_nonneg hm0
  set mN : Nat := m.toNat with hmN
  -- the re-encoded period
  set R : Nat := month2Period mN with hR
  have hvRR := hvR
  simp only [validPeriod, Bool.and_eq_true, decide_eq_true_eq] at hvRR
  obtain ⟨⟨⟨-, hR1⟩, -⟩, -⟩ := hvRR
  have hRle : R ≤ 999999 := by omega
  have hmNle : mN ≤ 119999 := by
    unfold month2Period at hR
    omega
  -- periodAddRow computes R
  have hrowval : periodAddRow p n = (R : Int) := by
    unfold periodAddRow
    rw [← hP, ← hM]
    rw [toInt64_nat_of_small (show M < 9223372036854775808 by omega)]
    rw [← hmdef]
    rw [toInt64_of_small hm0 (by omega)]
    rw [show toUInt64 m = mN from by unfold toUInt64; omega]
    rw [← hR]
    exact toInt64_nat_of_small (by omega)
  -- PERIOD_ADD on the one-row batch
  have hrowadd : periodAddRowE (some p, some n) = .ok (some (periodAddRow p n)) := by
    simp [periodAddRowE, hv]
  have hvecadd : periodAddVec [some p] [some n] = .ok [some (periodAddRow p n)] := by
    unfold periodAddVec
    exact vecEval_singleton hrowadd
  -- PERIOD_DIFF of the result against p recovers n
  have hvalidR : validPeriod (periodAddRow p n) = true := by
    rw [hrowval]
    exact hvR
  have hdiffval : periodDiffRow (periodAddRow p n) p = n := by
    unfold periodDiffRow
    rw [hrowval, ← hP]
    rw [show toUInt64 (R : Int) = R from by unfold toUInt64; omega]
    rw [hR, period2Month_month2Period, ← hM]
    rw [usub64_small (by omega) (by omega)]
    omega
  have hrowdiff : periodDiffRowE (some (periodAddRow p n), some p) = .ok (some n) := by
    simp [periodDiffRowE, hv, hvalidR, hdiffval]
  have hvecdiff : periodDiffVec [some (periodAddRow p n)] [some p] = .ok [some n] := by
    unfold periodDiffVec
    exact vecEval_singleton hrowdiff
  exact ⟨hvecadd, hvecdiff⟩

/-- C3 witness: the round trip at P = 200101, N = 5 recovers 5. -/
theorem period_roundtrip_in_range_witness :
    periodAddVec [some 200101] [some 5] = .ok [some (periodAddRow 200101 5)] ∧
    periodDiffVec [some (periodAddRow 200101 5)] [some 200101] = .ok [some 5] :=
  period_roundtrip_in_range 200101 5 (by decide) (by decide) (by decide)

theorem dayNumber_jan1_pos (y : Nat) : 0 < dayNumber y 1 1 := by
  unfold dayNumber
  omega

theorem ratTrunc_eq_floor (q : ℚ) : ratTrunc q = ⌊q⌋ := Rat.floor_def.symm

/-- C6: the MAKEDATE row semantics — null (without a hard error) for
non-positive day counts, years outside `[0, 9999]`, or a synthesized year
above 9999; two-digit years offset by `+2000` (0–69) or `+1900` (70–99);
otherwise the calendar date `day - 1` days after January 1 of the offset
year; in particular MAKEDATE(2024, 60) is 2024-02-29 and MAKEDATE(2024, 0)
is null.  Nulls of both arguments are merged first in the batch. -/
theorem makedate_row_semantics :
    (∀ (strict : Bool) (y d : Int), d ≤ 0 ∨ y < 0 ∨ 9999 < y →
      makeDateRow strict y d = .ok none) ∧
    (∀ (strict : Bool) (x : Option Int × Option Int), ∃ r, makeDateRowE strict x = .ok r) ∧
    (∀ y : Int, 0 ≤ y → y < 70 → makeDateAdjYear y = y + 2000) ∧
    (∀ y : Int, 70 ≤ y → y < 100 → makeDateAdjYear y = y + 1900) ∧
    (∀ y : Int, 100 ≤ y → makeDateAdjYear y = y) ∧
    (∀ (strict : Bool) (y d : Int), 0 < d → 0 ≤ y → y ≤ 9999 →
      makeDateRow strict y d =
        (if (dateFromDayNumber ((dayNumber (makeDateAdjYear y).toNat 1 1 : Int) + d - 1).toNat).isZero
            || 9999 < (dateFromDayNumber ((dayNumber (makeDateAdjYear y).toNat 1 1 : Int) + d - 1).toNat).year
          then .ok none
          else .ok (some (dateFromDayNumber ((dayNumber (makeDateAdjYear y).toNat 1 1 : Int) + d - 1).toNat)))) ∧
    (∀ strict : Bool, makeDateRow strict 2024 60 = .ok (some ⟨2024, 2, 29, 0, 0, 0, 0⟩)) ∧
    (∀ strict : Bool, makeDateRow strict 2024 0 = .ok none) ∧
    (∀ (strict : Bool) (ys ds : List (Option Int)) (out : List (Option MyTime))
       (i : Nat) (oy od : Option Int),
       makeDateVec strict ys ds = .ok out → ys[i]? = some oy → ds[i]? = some od →
       oy = none ∨ od = none → out[i]? = some none) := by
  have hstart : ∀ y : Int, ¬ ((dayNumber (makeDateAdjYear y).toNat 1 1 : Int) = 0) := by
    intro y h
    have := dayNumber_jan1_pos (makeDateAdjYear y).toNat
    omega
  have hnone : ∀ (strict : Bool) (y d : Int), d ≤ 0 ∨ y < 0 ∨ 9999 < y →
      makeDateRow strict y d = .ok none := by
    intro strict y d h
    unfold makeDateRow
    rw [if_pos (by simp only [Bool.or_eq_true, decide_eq_true_eq]; omega)]
  have hchar : ∀ (strict : Bool) (y d : Int), 0 < d → 0 ≤ y → y ≤ 9999 →
      makeDateRow strict y d =
        (if (dateFromDayNumber ((dayNumber (makeDateAdjYear y).toNat 1 1 : Int) + d - 1).toNat).isZero
            || 9999 < (dateFromDayNumber ((dayNumber (makeDateAdjYear y).toNat 1 1 : Int) + d - 1).toNat).year
          then .ok none
          else .ok (some (dateFromDayNumber ((dayNumber (makeDateAdjYear y).toNat 1 1 : Int) + d - 1).toNat))) := by
    intro strict y d hd h0 h9
    unfold makeDateRow
    rw [if_neg (by simp only [Bool.or_eq_true, decide_eq_true_eq]; omega)]
    rw [if_neg (hstart y)]
  refine ⟨hnone, ?_, ?_, ?_, ?_, hchar, ?_, ?_, ?_⟩
  · intro strict x
    obtain ⟨oy, od⟩ := x
    cases oy with
    | none => exact ⟨none, rfl⟩
    | some y =>
      cases od with
      | none => exact ⟨none, rfl⟩
      | some d =>
        show ∃ r, makeDateRow strict y d = .ok r
        by_cases hg : d ≤ 0 ∨ y < 0 ∨ 9999 < y
        · exact ⟨none, hnone strict y d hg⟩
        · rw [hchar strict y d (by omega) (by omega) (by omega)]
          by_cases hz : ((dateFromDayNumber ((dayNumber (makeDateAdjYear y).toNat 1 1 : Int) + d - 1).toNat).isZero
              || 9999 < (dateFromDayNumber ((dayNumber (makeDateAdjYear y).toNat 1 1 : Int) + d - 1).toNat).year) = true
          · exact ⟨none, by rw [if_pos hz]⟩
          · exact ⟨some (dateFromDayNumber ((dayNumber (makeDateAdjYear y).toNat 1 1 : Int) + d - 1).toNat),
              by rw [if_neg hz]⟩
  · intro y h0 h70
    unfold makeDateAdjYear
    rw [if_pos (by omega)]
  · intro y h70 h100
    unfold makeDateAdjYear
    rw [if_neg (by omega), if_pos (by omega)]
  · intro y h100
    unfold makeDateAdjYear
    rw [if_neg (by omega), if_neg (by omega)]
  · intro strict
    rfl
  · intro strict
    rfl
  · intro strict ys ds out i oy od hok hy hd hnull
    have hrow : makeDateRowE strict (oy, od) = .ok none := by
      rcases hnull with rfl | rfl
      · rfl
      · cases oy <;> rfl
    obtain ⟨b, hb, hout⟩ := vecEval_ok_get hok i (oy, od) (zip_getElem?.mpr ⟨hy, hd⟩)
    rw [hrow] at hb
    simp only [Except.ok.injEq] at hb
    subst hb
    exact hout

/-- C6 witness: concrete rows — a negative year is null, day 0 is null, the
two-digit year 24 maps to 2024, and day 60 of 2024 is 2024-02-29. -/
theorem makedate_row_semantics_witness :
    makeDateRow false (-5) 10 = .ok none ∧
    makeDateRow false 2024 0 = .ok none ∧
    makeDateAdjYear 24 = 2024 ∧
    makeDateAdjYear 99 = 1999 ∧
    makeDateRow false 2024 60 = .ok (some ⟨2024, 2, 29, 0, 0, 0, 0⟩) := by
  refine ⟨makedate_row_semantics.1 false (-5) 10 (by omega),
    makedate_row_semantics.2.2.2.2.2.2.2.1 false, ?_, ?_,
    makedate_row_semantics.2.2.2.2.2.2.1 false⟩
  · have h := makedate_row_semantics.2.2.1 24 (by omega) (by omega)
    rw [h]
    decide
  · have h := makedate_row_semantics.2.2.2.1 99 (by omega) (by omega)
    rw [h]
    decide

/-- C7 counterexample: 3020000 seconds is 838:53:20 — the computed hour is
838, not above it, so the row is NOT clamped and the duration equals the
input, not the claimed ceiling 838:59:59 (= 3020399 seconds). -/
theorem sec_to_time_3020000_not_clamped :
    secToTimeRow 3020000 = ⟨false, 838, 53, 20⟩ ∧
    secToTimeValue 3020000 = 3020000 ∧
    (3020000 : ℚ) ≠ 838 * 3600 + 59 * 60 + 59 := by
  have habs : |(3020000 : ℚ)| = 3020000 := abs_of_nonneg (by norm_num)
  have htr : ratTrunc (3020000 : ℚ) = 3020000 := by
    rw [ratTrunc_eq_floor]
    rw [show (3020000 : ℚ) = ((3020000 : Int) : ℚ) by norm_num]
    exact Int.floor_intCast 3020000
  have hrow : secToTimeRow 3020000 = ⟨false, 838, 53, 20⟩ := by
    unfold secToTimeRow
    rw [habs, htr]
    rw [if_neg (by decide)]
    simp only [SecToTimeOut.mk.injEq]
    refine ⟨decide_eq_false (by norm_num), by decide, by decide, ?_⟩
    norm_num
  refine ⟨hrow, ?_, by norm_num⟩
  unfold secToTimeValue
  rw [hrow]
  norm_num

/-- C7 (amended): for every row whose truncated absolute seconds give an
hour component above 838, the integer components are clamped to 838:59:59
with the sign of the input preserved, but the input's sub-second fraction is
still appended to the second component; for inputs with zero fractional part
the assembled duration is exactly ±(838:59:59) = ±3020399 seconds.  (The
input 3020000 of the claim's example is below the ceiling and is not
clamped.) -/
theorem sec_to_time_clamp_components :
    ∀ x : ℚ, 838 < ratTrunc |x| / 3600 →
      secToTimeRow x = ⟨decide (x < 0), 838, 59, 59 + (|x| - (ratTrunc |x| : ℚ))⟩ ∧
      ((ratTrunc |x| : ℚ) = |x| →
        secToTimeValue x = (if x < 0 then (-1 : ℚ) else 1) * 3020399) := by
  intro x h
  have hrow : secToTimeRow x = ⟨decide (x < 0), 838, 59, 59 + (|x| - (ratTrunc |x| : ℚ))⟩ := by
    unfold secToTimeRow
    rw [if_pos h]
  refine ⟨hrow, fun hint => ?_⟩
  unfold secToTimeValue
  rw [hrow]
  dsimp only
  rw [hint]
  by_cases hneg : x < 0
  · rw [if_pos hneg]
    simp only [decide_eq_true hneg, if_true]
    norm_num
  · rw [if_neg hneg]
    simp only [decide_eq_false hneg, if_false]
    norm_num

/-- C7 witness: SEC_TO_TIME at 3020400 seconds (hour 839) is clamped to
exactly 838:59:59 = 3020399 seconds. -/
theorem sec_to_time_clamp_components_witness :
    secToTimeValue 3020400 = 3020399 := by
  have habs : |(3020400 : ℚ)| = 3020400 := abs_of_nonneg (by norm_num)
  have htr : ratTrunc (3020400 : ℚ) = 3020400 := by
    rw [ratTrunc_eq_floor]
    rw [show (3020400 : ℚ) = ((3020400 : Int) : ℚ) by norm_num]
    exact Int.floor_intCast 3020400
  have h838 : 838 < ratTrunc |(3020400 : ℚ)| / 3600 := by
    rw [habs, htr]
    decide
  have h := (sec_to_time_clamp_components 3020400 h838).2 (by rw [habs, htr]; norm_num)
  rw [h, if_neg (by norm_num)]
  norm_num

end TimeVec
